import Mathlib

/-!
Shallow embedding of the fbpcs fragments under verification:

* `fbpcs/infra/pce_deployment_library/deploy_library/terraform_library/terraform_deployment_utils.py`
  (`TerraformDeploymentUtils.get_command_list`, `TerraformDeploymentUtils.get_default_options`)
* `fbpcs/pid/service/pid_service/utils.py`
  (`pid_should_use_row_numbers` and friends)
* `fbpcs/private_computation/entity/infra_config.py`
  (the `InfraConfig` dataclass, its container-count invariant hook and its
  status-update hook).

Python values that can appear as a terraform CLI option are modelled by
`TfValue`; Python dicts are modelled as association lists in insertion
order, matching Python's ordered-dict semantics.
-/

namespace Fbpcs

/-- Values a keyword option of `get_command_list` can hold in the source:
a plain scalar rendered via str (strings and ints), a bool, a list of
scalars, a nested dict, or Python `None`. -/
inductive TfValue where
  | str (s : String)
  | num (n : Nat)
  | boolean (b : Bool)
  | list (xs : List String)
  | dict (kvs : List (String × String))
  | none
deriving DecidableEq, Repr

/-- Rendering of a scalar the way Python f-strings do via `str(value)`. -/
def TfValue.scalarStr : TfValue → String
  | .str s => s
  | .num n => toString n
  | v => toString (repr v)

/-- Python `key.replace("_", "-")` from `get_command_list`, character by
character (the only patterns replaced are single characters). -/
def hyphenate (key : String) : String :=
  ⟨key.data.map (fun c => if c = '_' then '-' else c)⟩

/-- Helper for the Python `in` substring test: does `pat` occur inside
the character list? -/
def charsContains (pat : List Char) : List Char → Bool
  | [] => pat.isEmpty
  | c :: rest => pat.isPrefixOf (c :: rest) || charsContains pat rest

/-- Python `pat in s` substring test (for `"backend-config" in key`). -/
def strContains (s pat : String) : Bool :=
  charsContains pat.data s.data

/-- Tokens contributed by a single keyword option of `get_command_list`:
the body of the `for key, value in kwargs.items()` loop of the source. -/
def renderOption (key : String) (v : TfValue) : List String :=
  let k := hyphenate key
  match v with
  | .list xs => xs.map (fun inner => "-" ++ k ++ "=" ++ inner)
  | .dict kvs =>
      if strContains k "backend-config" then
        kvs.map (fun kv => "-backend-config " ++ kv.1 ++ "=" ++ kv.2)
      else
        []
  | .boolean b => ["-" ++ k ++ "=" ++ (if b then "true" else "false")]
  | .none => []
  | v => ["-" ++ k ++ "=" ++ v.scalarStr]

/-- Tokens contributed by all keyword options, in `kwargs` order. -/
def optionTokens (kwargs : List (String × TfValue)) : List String :=
  (kwargs.map (fun kv => renderOption kv.1 kv.2)).flatten

/-- Helper for Python `command.split()`: cut a character list at every
separator, keeping the pieces (empty pieces included); `acc` holds the
current piece reversed. -/
def splitChars (p : Char → Bool) : List Char → List Char → List (List Char)
  | acc, [] => [acc.reverse]
  | acc, c :: cs =>
      if p c then acc.reverse :: splitChars p [] cs else splitChars p (c :: acc) cs

/-- Python `command.split()`: split on whitespace, dropping empty pieces. -/
def splitCommand (command : String) : List String :=
  ((splitChars Char.isWhitespace [] command.data).map (fun cs => String.mk cs)).filter
    (fun s => s ≠ "")

/-- `TerraformDeploymentUtils.get_command_list`: splits the base command,
appends one rendering per keyword option in order, then appends the
positional args. -/
def get_command_list (command : String) (args : List String)
    (kwargs : List (String × TfValue)) : List String :=
  splitCommand command ++ optionTokens kwargs ++ args

/-- The `self` state of `TerraformDeploymentUtils` after `__init__`
(with the `None` defaults already replaced by `[]` / `{}` as the
constructor does). -/
structure TerraformDeploymentUtils where
  state_file_path : Option String
  resource_targets : List String
  terraform_variables : List (String × String)
  parallelism : Nat
  var_definition_file : Option String
  input : Bool
deriving Repr

/-- Renders an `Optional[str]` field as the `TfValue` it holds. -/
def optStr : Option String → TfValue
  | some s => .str s
  | Option.none => TfValue.none

/-- Modelled from the spec: the option-name constants of
`TerraformCliOptions` (in `deploy_library/models.py`, which is not part
of the given sources); the spec names the default option set as state,
target, var, var-file, parallelism and input. -/
def terraformCliOptionNames : List String :=
  ["state", "target", "var", "var_file", "parallelism", "input"]

/-- First-match lookup in an association list (Python dict lookup). -/
def alookup (d : List (String × TfValue)) (k : String) : Option TfValue :=
  match d.find? (fun kv => kv.1 = k) with
  | some kv => some kv.2
  | Option.none => Option.none

/-- Python `{**a, **b}` on ordered dicts: keys of `a` keep their position
(with values overridden by `b` where present), then the keys of `b` not
in `a` follow in `b`'s order. -/
def dictMerge (a b : List (String × TfValue)) : List (String × TfValue) :=
  (a.map (fun kv =>
    match alookup b kv.1 with
    | some v => (kv.1, v)
    | Option.none => kv)) ++
  b.filter (fun kv => (alookup a kv.1).isNone)

/-- Python `dict.pop(key, None)`: drop the key if present. -/
def dictPop (d : List (String × TfValue)) (k : String) : List (String × TfValue) :=
  d.filter (fun kv => kv.1 ≠ k)

/-- The default-option dict literal built by `get_default_options`. -/
def defaultOptionsDict (u : TerraformDeploymentUtils) : List (String × TfValue) :=
  [("state", optStr u.state_file_path),
   ("target", TfValue.list u.resource_targets),
   ("var", TfValue.dict u.terraform_variables),
   ("var_file", optStr u.var_definition_file),
   ("parallelism", TfValue.num u.parallelism),
   ("input", TfValue.boolean u.input)]

/-- `TerraformDeploymentUtils.get_default_options`. The denylist
`NOT_SUPPORTED_INIT_DEFAULT_OPTIONS` lives in `deploy_library/models.py`,
which is not part of the given sources, so it is passed here as an
explicit parameter (modelled from the spec: "a fixed default option set
can be reduced by removing a configured denylist for one specific
subcommand"). -/
def get_default_options (denylist : List String)
    (u : TerraformDeploymentUtils) (terraform_command : String)
    (input_options : List (String × TfValue)) : List (String × TfValue) :=
  let return_dict := dictMerge (defaultOptionsDict u) input_options
  if terraform_command = "init" then
    denylist.foldl (fun d k => dictPop d k) return_dict
  else
    return_dict

/-- Modelled from the spec: the protocol-variant enum `PIDProtocol`
(imported from `fbpcs/pid/entity/pid_instance.py`, which is not part of
the given sources); the spec only distinguishes the multikey variant
from the others. -/
inductive PIDProtocol where
  | UNION_PID
  | PS3I_M_TO_M
  | UNION_PID_MULTIKEY
deriving DecidableEq, Repr

/-- `pid_should_use_row_numbers` from `fbpcs/pid/service/pid_service/utils.py`. -/
def pid_should_use_row_numbers (pid_use_row_numbers : Bool)
    (pid_protocol : PIDProtocol) : Bool :=
  if pid_use_row_numbers && !(pid_protocol = PIDProtocol.UNION_PID_MULTIKEY) then
    true
  else
    false

/-- `PrivateComputationRole` from `infra_config.py`. -/
inductive PrivateComputationRole where
  | PUBLISHER
  | PARTNER
deriving DecidableEq, Repr

/-- `PrivateComputationGameType` from `infra_config.py`. -/
inductive PrivateComputationGameType where
  | LIFT
  | ATTRIBUTION
deriving DecidableEq, Repr

/-- Modelled from the spec: `PrivateComputationInstanceStatus` is imported
from `private_computation_status.py`, which is not part of the given
sources; the spec's scenarios use PENDING and RUNNING, so a
representative selection of statuses is modelled. The claims under
verification do not depend on the set of variants. -/
inductive PrivateComputationInstanceStatus where
  | CREATED
  | PENDING
  | RUNNING
  | COMPLETED
  | FAILED
deriving DecidableEq, Repr

/-- Placeholder for the `UnionedPCInstance` union type: its members are
imported from modules that are not part of the given sources and no
claim inspects them. -/
inductive UnionedPCInstance where
  | mk
deriving DecidableEq, Repr

/-- Placeholder for `PCSFeature` (imported, not part of the given
sources; no claim inspects it). -/
inductive PCSFeature where
  | mk
deriving DecidableEq, Repr

/-- Placeholder for `PCEConfig` (imported, not part of the given
sources; no claim inspects it). -/
inductive PCEConfig where
  | mk
deriving DecidableEq, Repr

/-- The `StatusUpdate` dataclass of `infra_config.py`: a
(status, status_update_ts) pair appended to the history log. -/
structure StatusUpdate where
  status : PrivateComputationInstanceStatus
  status_update_ts : Nat
deriving DecidableEq, Repr

/-- The fields of the `InfraConfig` dataclass of `infra_config.py`, in
declaration order. A value of this type is a fully initialized entity
(every field holds a value), which is the state of a Python instance
from the end of `__init__` onward. -/
structure InfraConfig where
  instance_id : String
  role : PrivateComputationRole
  status : PrivateComputationInstanceStatus
  status_update_ts : Nat
  instances : List UnionedPCInstance
  game_type : PrivateComputationGameType
  num_pid_containers : Nat
  num_mpc_containers : Nat
  num_files_per_mpc_container : Nat
  status_updates : List StatusUpdate
  tier : Option String
  pcs_features : List PCSFeature
  pce_config : Option PCEConfig
  stage_flow_cls_name : String
  retry_counter : Nat
  creation_ts : Nat
  end_ts : Nat
  mpc_compute_concurrency : Nat
deriving DecidableEq, Repr

/-- Errors surfaced by the entity layer. `InvariantViolation` carries the
two container counts named by `raise_containers_error`'s message;
`ImmutableFieldViolation` is the immutability rejection of the
mutability mixin. -/
inductive PcError where
  | ImmutableFieldViolation
  | InvariantViolation (num_pid_containers num_mpc_containers : Nat)
deriving DecidableEq, Repr

/-- `not_valid_containers` from `infra_config.py`: the hook condition of
`num_pid_mpc_containers_hook`. The Python `hasattr` tests on a
partially constructed object are modelled by `Option`-valued container
counts: `some` when the attribute is initialized, `none` when not. -/
def not_valid_containers (num_pid_containers num_mpc_containers : Option Nat) : Bool :=
  match num_pid_containers, num_mpc_containers with
  | some p, some m => decide (p > m)
  | _, _ => false

/-- The error value of `raise_containers_error` from `infra_config.py`,
naming both received container counts. -/
def raise_containers_error (num_pid num_mpc : Nat) : PcError :=
  PcError.InvariantViolation num_pid num_mpc

/-- The POST_INIT firing of `num_pid_mpc_containers_hook` on a fully
constructed record: runs `raise_containers_error` exactly when
`not_valid_containers` holds (after `__init__` both container fields
are initialized, so both `hasattr` tests succeed). -/
def checkContainersHook (obj : InfraConfig) : Except PcError InfraConfig :=
  if not_valid_containers (some obj.num_pid_containers) (some obj.num_mpc_containers) then
    Except.error (raise_containers_error obj.num_pid_containers obj.num_mpc_containers)
  else
    Except.ok obj

/-- Modelled from the spec: construction of the entity. The lifecycle
dispatcher of `DataclassMutabilityMixin` / `DataclassHookMixin` is not
part of the given sources; per the spec, construction assigns all
supplied field values with no POST_UPDATE dispatch, then fires the
POST_INIT hooks, and the entity is returned READY only if no hook
raises. The only POST_INIT hook registered in `infra_config.py` is
`num_pid_mpc_containers_hook` (on both container fields);
`post_status_hook` triggers on POST_UPDATE only, so it does not fire
here. -/
def mkInfraConfig (raw : InfraConfig) : Except PcError InfraConfig :=
  checkContainersHook raw

/-- `append_status_updates` from `infra_config.py`: append the current
(status, status_update_ts) pair to `status_updates`. -/
def append_status_updates (obj : InfraConfig) : InfraConfig :=
  { obj with status_updates :=
      obj.status_updates ++ [StatusUpdate.mk obj.status obj.status_update_ts] }

/-- `post_update_status` from `infra_config.py`, with the wall clock made
an explicit argument: refresh `status_update_ts` to the current
UTC-epoch seconds, then append to the history. Runs after the new
status value is already visible on the entity. -/
def post_update_status (now : Nat) (obj : InfraConfig) : InfraConfig :=
  append_status_updates { obj with status_update_ts := now }

/-- Modelled from the spec: a READY-state external assignment to the
`status` field. The dispatcher (not part of the given sources) applies
the new value, then fires the POST_UPDATE hooks registered on the
field — here `post_status_hook`, whose update function is
`post_update_status`. The status field is mutable and its hook never
raises, so the write always succeeds. -/
def set_status (obj : InfraConfig) (new_status : PrivateComputationInstanceStatus)
    (now : Nat) : InfraConfig :=
  post_update_status now { obj with status := new_status }

/-- Modelled from the spec: a READY-state external assignment to
`num_pid_containers`. The dispatcher applies the new value and fires
`num_pid_mpc_containers_hook` (POST_UPDATE) against the post-write
state; if the hook raises, the write fails and, per the spec's
apply-then-validate-then-rollback resolution, the caller's entity keeps
its prior field value. -/
def set_num_pid_containers (obj : InfraConfig) (n : Nat) : Except PcError InfraConfig :=
  checkContainersHook { obj with num_pid_containers := n }

/-- Modelled from the spec: a READY-state external assignment to
`num_mpc_containers`, symmetric to `set_num_pid_containers`. -/
def set_num_mpc_containers (obj : InfraConfig) (n : Nat) : Except PcError InfraConfig :=
  checkContainersHook { obj with num_mpc_containers := n }

/-- Modelled from the spec: the mutability-enforcement check
(`DataclassMutabilityMixin` is not part of the given sources). A write
to a field already holding an initialized value fails with the
immutability error when the field is marked immutable; a first
assignment (initialized = false) always succeeds with the new value. -/
def writeImmutableField {α : Type} (initialized : Bool) (new : α) : Except PcError α :=
  if initialized then Except.error PcError.ImmutableFieldViolation else Except.ok new

/-- Modelled from the spec: external assignment to the immutable field
`instance_id` on a READY entity (every field of an `InfraConfig` value
is initialized, so the immutability check always rejects). -/
def set_instance_id (obj : InfraConfig) (v : String) : Except PcError InfraConfig :=
  match writeImmutableField true v with
  | Except.error e => Except.error e
  | Except.ok v => Except.ok { obj with instance_id := v }

/-- Modelled from the spec: external assignment to the immutable field
`game_type` on a READY entity. -/
def set_game_type (obj : InfraConfig) (v : PrivateComputationGameType) :
    Except PcError InfraConfig :=
  match writeImmutableField true v with
  | Except.error e => Except.error e
  | Except.ok v => Except.ok { obj with game_type := v }

/-- Modelled from the spec: external assignment to the immutable field
`tier` on a READY entity. -/
def set_tier (obj : InfraConfig) (v : Option String) : Except PcError InfraConfig :=
  match writeImmutableField true v with
  | Except.error e => Except.error e
  | Except.ok v => Except.ok { obj with tier := v }

/-- Modelled from the spec: external assignment to the immutable field
`creation_ts` on a READY entity. -/
def set_creation_ts (obj : InfraConfig) (v : Nat) : Except PcError InfraConfig :=
  match writeImmutableField true v with
  | Except.error e => Except.error e
  | Except.ok v => Except.ok { obj with creation_ts := v }

/-- A sequence of successful status writes applied in order: each list
entry is (new status value, wall-clock reading at that write). -/
def applyStatusUpdates (obj : InfraConfig)
    (ups : List (PrivateComputationInstanceStatus × Nat)) : InfraConfig :=
  ups.foldl (fun c u => set_status c u.1 u.2) obj

/-- A concrete, fully supplied constructor argument record used to
evaluate the entity operations on concrete inputs (container counts 2
and 5, matching the spec's scenario). -/
def sampleConfig : InfraConfig :=
  { instance_id := "instance123"
    role := PrivateComputationRole.PUBLISHER
    status := PrivateComputationInstanceStatus.CREATED
    status_update_ts := 0
    instances := []
    game_type := PrivateComputationGameType.LIFT
    num_pid_containers := 2
    num_mpc_containers := 5
    num_files_per_mpc_container := 4
    status_updates := []
    tier := some "rc"
    pcs_features := []
    pce_config := Option.none
    stage_flow_cls_name := "PrivateComputationStageFlow"
    retry_counter := 0
    creation_ts := 100
    end_ts := 0
    mpc_compute_concurrency := 1 }

/-- The keys of a modelled Python dict, in insertion order. -/
def dictKeys (d : List (String × TfValue)) : List String :=
  d.map Prod.fst

/-- A concrete `TerraformDeploymentUtils` state used to evaluate the
option builders on concrete inputs. -/
def sampleUtils : TerraformDeploymentUtils :=
  { state_file_path := some "fbpcs.tfstate"
    resource_targets := []
    terraform_variables := []
    parallelism := 10
    var_definition_file := Option.none
    input := false }

/-! ### Theorems settling the claims -/

/-- The status history after a sequence of successful status writes is
the prior history extended by one (status, timestamp) pair per write,
in write order. -/
theorem applyStatusUpdates_history (obj : InfraConfig)
    (ups : List (PrivateComputationInstanceStatus × Nat)) :
    (applyStatusUpdates obj ups).status_updates =
      obj.status_updates ++ ups.map (fun u => StatusUpdate.mk u.1 u.2) := by
  induction ups generalizing obj with
  | nil => simp [applyStatusUpdates]
  | cons u rest ih =>
      have hstep : applyStatusUpdates obj (u :: rest) =
          applyStatusUpdates (set_status obj u.1 u.2) rest := rfl
      rw [hstep, ih]
      simp [set_status, post_update_status, append_status_updates]

/-- C1: constructing an `InfraConfig` with `num_pid_containers`
strictly greater than `num_mpc_containers` fails with an
`InvariantViolation` naming both values, and constructing with
`num_pid_containers ≤ num_mpc_containers` succeeds, returning the READY
entity with the supplied field values. -/
theorem mkInfraConfig_validates_containers (raw : InfraConfig) :
    (raw.num_pid_containers > raw.num_mpc_containers →
      mkInfraConfig raw =
        Except.error
          (PcError.InvariantViolation raw.num_pid_containers raw.num_mpc_containers)) ∧
    (raw.num_pid_containers ≤ raw.num_mpc_containers →
      mkInfraConfig raw = Except.ok raw) := by
  constructor <;> intro h <;>
    simp [mkInfraConfig, checkContainersHook, not_valid_containers,
      raise_containers_error, h, Nat.not_lt.mpr]

/-- Witness for C1 at concrete inputs: counts (6, 5) are rejected with
the violation naming 6 and 5, counts (2, 5) are accepted. -/
theorem mkInfraConfig_validates_containers_witness :
    mkInfraConfig { sampleConfig with num_pid_containers := 6 } =
      Except.error (PcError.InvariantViolation 6 5) ∧
    mkInfraConfig sampleConfig = Except.ok sampleConfig := by
  constructor
  · simpa using
      (mkInfraConfig_validates_containers
        { sampleConfig with num_pid_containers := 6 }).1 (by decide)
  · exact (mkInfraConfig_validates_containers sampleConfig).2 (by decide)

/-- C3: the spec's scenario. Construction with counts (2, 5) succeeds
READY; the subsequent update setting `num_pid_containers` to 6 fails
with `InvariantViolation` reporting 6 and 5, and the entity's
`num_pid_containers` still equals 2 afterwards (the rejected value is
not applied: the failed setter yields no updated entity and the
caller's entity is unchanged). -/
theorem update_pid_containers_scenario :
    mkInfraConfig sampleConfig = Except.ok sampleConfig ∧
    sampleConfig.num_pid_containers = 2 ∧
    sampleConfig.num_mpc_containers = 5 ∧
    set_num_pid_containers sampleConfig 6 =
      Except.error (PcError.InvariantViolation 6 5) ∧
    sampleConfig.num_pid_containers = 2 := by
  exact ⟨rfl, rfl, rfl, rfl, rfl⟩

/-- C4: every external assignment to one of the immutable fields
(`instance_id`, `game_type`, `tier`, `creation_ts`) of an initialized
entity fails with `ImmutableFieldViolation` (the entity value is
untouched since no updated entity is produced), while a first
assignment — the mutability check with the field not yet initialized —
always succeeds with the new value. -/
theorem immutable_fields_reject_second_write (obj : InfraConfig) (s : String)
    (g : PrivateComputationGameType) (t : Option String) (c : Nat) :
    set_instance_id obj s = Except.error PcError.ImmutableFieldViolation ∧
    set_game_type obj g = Except.error PcError.ImmutableFieldViolation ∧
    set_tier obj t = Except.error PcError.ImmutableFieldViolation ∧
    set_creation_ts obj c = Except.error PcError.ImmutableFieldViolation ∧
    (∀ (α : Type) (v : α), writeImmutableField false v = Except.ok v) := by
  exact ⟨rfl, rfl, rfl, rfl, fun α v => rfl⟩

/-- C5: the hook condition `not_valid_containers` holds exactly when
both container fields are initialized (`some`) and
`num_pid_containers > num_mpc_containers`; whenever at least one field
is uninitialized (`none`) it is false, and the hook's action
(`raise_containers_error`) runs — i.e. `checkContainersHook` errors —
exactly when the condition holds. -/
theorem not_valid_containers_spec (p m : Option Nat) :
    (not_valid_containers p m = true ↔
      ∃ a b, p = some a ∧ m = some b ∧ a > b) ∧
    ((p = Option.none ∨ m = Option.none) → not_valid_containers p m = false) ∧
    (∀ obj : InfraConfig,
      checkContainersHook obj = Except.ok obj ↔
        not_valid_containers (some obj.num_pid_containers)
          (some obj.num_mpc_containers) = false) := by
  refine ⟨?_, ?_, ?_⟩
  · cases p <;> cases m <;> simp [not_valid_containers]
  · rintro (rfl | rfl)
    · cases m <;> simp [not_valid_containers]
    · cases p <;> simp [not_valid_containers]
  · intro obj
    by_cases h : not_valid_containers (some obj.num_pid_containers)
        (some obj.num_mpc_containers) = true
    · simp [checkContainersHook, h]
    · simp only [Bool.not_eq_true] at h
      simp [checkContainersHook, h]

/-- Witness for C5 at concrete inputs: (3, 2) trips the condition,
a missing `num_pid_containers` does not. -/
theorem not_valid_containers_spec_witness :
    not_valid_containers (some 3) (some 2) = true ∧
    not_valid_containers Option.none (some 2) = false := by
  exact ⟨((not_valid_containers_spec (some 3) (some 2)).1).mpr
      ⟨3, 2, rfl, rfl, by decide⟩,
    (not_valid_containers_spec Option.none (some 2)).2.1 (Or.inl rfl)⟩

/-- C10: `pid_should_use_row_numbers` returns true exactly when the
row-numbering flag is set and the protocol is not
`UNION_PID_MULTIKEY`; in particular it returns false for the multikey
protocol even when the flag is set. -/
theorem pid_should_use_row_numbers_spec (b : Bool) (p : PIDProtocol) :
    (pid_should_use_row_numbers b p = true ↔
      b = true ∧ p ≠ PIDProtocol.UNION_PID_MULTIKEY) ∧
    pid_should_use_row_numbers b PIDProtocol.UNION_PID_MULTIKEY = false := by
  cases b <;> cases p <;> simp [pid_should_use_row_numbers]

/-- C2: starting from an entity whose history is empty, N successful
status writes leave `status_updates` with exactly the N written
(status, refreshed timestamp) pairs in write order, its length equals
N, and when the wall-clock readings are non-decreasing so are the
recorded timestamps. -/
theorem status_updates_after_writes (obj : InfraConfig)
    (ups : List (PrivateComputationInstanceStatus × Nat))
    (h0 : obj.status_updates = []) :
    (applyStatusUpdates obj ups).status_updates =
      ups.map (fun u => StatusUpdate.mk u.1 u.2) ∧
    (applyStatusUpdates obj ups).status_updates.length = ups.length ∧
    (List.Chain' (fun a b => a ≤ b) (ups.map Prod.snd) →
      List.Chain' (fun a b : StatusUpdate => a.status_update_ts ≤ b.status_update_ts)
        (applyStatusUpdates obj ups).status_updates) := by
  have hh := applyStatusUpdates_history obj ups
  rw [h0, List.nil_append] at hh
  refine ⟨hh, by rw [hh]; simp, ?_⟩
  intro hc
  rw [hh, List.chain'_map]
  rw [List.chain'_map] at hc
  exact hc

/-- Witness for C2 at concrete inputs: two writes (PENDING at 105,
RUNNING at 110) to the sample entity leave exactly those two pairs in
order, with non-decreasing timestamps. -/
theorem status_updates_after_writes_witness :
    (applyStatusUpdates sampleConfig
        [(PrivateComputationInstanceStatus.PENDING, 105),
         (PrivateComputationInstanceStatus.RUNNING, 110)]).status_updates =
      [StatusUpdate.mk PrivateComputationInstanceStatus.PENDING 105,
       StatusUpdate.mk PrivateComputationInstanceStatus.RUNNING 110] ∧
    List.Chain' (fun a b : StatusUpdate => a.status_update_ts ≤ b.status_update_ts)
      (applyStatusUpdates sampleConfig
        [(PrivateComputationInstanceStatus.PENDING, 105),
         (PrivateComputationInstanceStatus.RUNNING, 110)]).status_updates := by
  have h := status_updates_after_writes sampleConfig
      [(PrivateComputationInstanceStatus.PENDING, 105),
       (PrivateComputationInstanceStatus.RUNNING, 110)] rfl
  exact ⟨h.1, h.2.2 (by simp [List.chain'_cons, List.chain'_singleton])⟩

/-- C6: a nested-mapping option whose hyphenated name contains
"backend-config" contributes exactly one `-backend-config key=value`
token per mapping entry to the command list, one token per entry. -/
theorem backend_config_dict_tokens (cmd : String) (args : List String)
    (pre post : List (String × TfValue)) (key : String)
    (kvs : List (String × String))
    (h : strContains (hyphenate key) "backend-config" = true) :
    get_command_list cmd args (pre ++ (key, TfValue.dict kvs) :: post) =
      splitCommand cmd ++ optionTokens pre ++
        kvs.map (fun kv => "-backend-config " ++ kv.1 ++ "=" ++ kv.2) ++
        optionTokens post ++ args ∧
    (kvs.map (fun kv => "-backend-config " ++ kv.1 ++ "=" ++ kv.2)).length =
      kvs.length := by
  refine ⟨?_, by simp⟩
  simp [get_command_list, optionTokens, renderOption, h]

/-- Witness for C6 at concrete inputs: a two-entry backend_config dict
yields two backend-config tokens. -/
theorem backend_config_dict_tokens_witness :
    get_command_list "terraform init" []
        [("backend_config", TfValue.dict [("bucket", "b1"), ("region", "r1")])] =
      ["terraform", "init", "-backend-config bucket=b1",
       "-backend-config region=r1"] := by
  have h := (backend_config_dict_tokens "terraform init" [] [] []
      "backend_config" [("bucket", "b1"), ("region", "r1")] (by decide)).1
  exact h.trans (by decide)

/-- C7: option names have underscores hyphenated, boolean options render
as a single token with literal `true`/`false`, and list options repeat
the flag once per element in list order. -/
theorem get_command_list_rendering (cmd : String) (args : List String)
    (key : String) (b : Bool) (xs : List String) :
    (hyphenate key).data = key.data.map (fun c => if c = '_' then '-' else c) ∧
    get_command_list cmd args [(key, TfValue.boolean b)] =
      splitCommand cmd ++
        ["-" ++ hyphenate key ++ "=" ++ (if b then "true" else "false")] ++ args ∧
    get_command_list cmd args [(key, TfValue.list xs)] =
      splitCommand cmd ++ xs.map (fun x => "-" ++ hyphenate key ++ "=" ++ x) ++ args ∧
    (xs.map (fun x => "-" ++ hyphenate key ++ "=" ++ x)).length = xs.length := by
  refine ⟨rfl, ?_, ?_, by simp⟩
  · simp [get_command_list, optionTokens, renderOption]
  · simp [get_command_list, optionTokens, renderOption]

/-- C9: an option holding Python `None` contributes no token, and a
mapping-valued option whose hyphenated name does not contain
"backend-config" contributes no token either — both are silently
dropped from the built command list. -/
theorem none_and_unrecognized_dict_dropped (cmd : String) (args : List String)
    (pre post : List (String × TfValue)) (key : String)
    (kvs : List (String × String)) :
    get_command_list cmd args (pre ++ (key, TfValue.none) :: post) =
      get_command_list cmd args (pre ++ post) ∧
    (strContains (hyphenate key) "backend-config" = false →
      get_command_list cmd args (pre ++ (key, TfValue.dict kvs) :: post) =
        get_command_list cmd args (pre ++ post)) := by
  constructor
  · simp [get_command_list, optionTokens, renderOption]
  · intro h
    simp [get_command_list, optionTokens, renderOption, h]

/-- Witness for C9 at concrete inputs: a None-valued option and a
non-backend-config dict option each leave the command list untouched. -/
theorem none_and_unrecognized_dict_dropped_witness :
    get_command_list "terraform apply" [] [("pce-id", TfValue.none)] =
      ["terraform", "apply"] ∧
    get_command_list "terraform apply" [] [("var", TfValue.dict [("a", "1")])] =
      ["terraform", "apply"] := by
  have h1 := (none_and_unrecognized_dict_dropped "terraform apply" [] [] []
      "pce-id" []).1
  have h2 := (none_and_unrecognized_dict_dropped "terraform apply" [] [] []
      "var" [("a", "1")]).2 (by decide)
  exact ⟨h1.trans (by decide), h2.trans (by decide)⟩

/-- Popping every key of a denylist equals filtering the dict down to
the keys outside the denylist. -/
theorem foldl_dictPop (denylist : List String) (d : List (String × TfValue)) :
    denylist.foldl (fun d k => dictPop d k) d =
      d.filter (fun kv => decide (kv.1 ∉ denylist)) := by
  induction denylist generalizing d with
  | nil => simp
  | cons k ks ih =>
      rw [List.foldl_cons, ih, dictPop, List.filter_filter]
      apply List.filter_congr
      intro kv _
      simp [List.mem_cons, not_or, Bool.and_comm]

/-- The keys of a merged dict start with all keys of the left dict (in
order), followed by the genuinely new keys of the right dict. -/
theorem dictKeys_dictMerge (a b : List (String × TfValue)) :
    dictKeys (dictMerge a b) =
      dictKeys a ++ dictKeys (b.filter (fun kv => (alookup a kv.1).isNone)) := by
  unfold dictKeys dictMerge
  rw [List.map_append, List.map_map]
  congr 1
  apply List.map_congr_left
  intro kv _
  cases h : alookup b kv.1 <;> simp [h]

/-- C8: `get_default_options` removes the configured denylist from the
merged option dict exactly when the subcommand is "init"; for every
other subcommand the result is the plain merge, in which every default
option name (state, target, var, var_file, parallelism, input) is
present as a key. -/
theorem get_default_options_spec (denylist : List String)
    (u : TerraformDeploymentUtils) (terraform_command : String)
    (input_options : List (String × TfValue)) :
    (terraform_command = "init" →
      get_default_options denylist u terraform_command input_options =
        (dictMerge (defaultOptionsDict u) input_options).filter
          (fun kv => decide (kv.1 ∉ denylist))) ∧
    (terraform_command ≠ "init" →
      get_default_options denylist u terraform_command input_options =
        dictMerge (defaultOptionsDict u) input_options ∧
      ∀ k ∈ terraformCliOptionNames,
        k ∈ dictKeys (get_default_options denylist u terraform_command input_options)) := by
  constructor
  · intro h
    simp [get_default_options, h, foldl_dictPop]
  · intro h
    have hres : get_default_options denylist u terraform_command input_options =
        dictMerge (defaultOptionsDict u) input_options := by
      simp [get_default_options, h]
    refine ⟨hres, ?_⟩
    intro k hk
    rw [hres, dictKeys_dictMerge]
    apply List.mem_append_left
    have hkeys : dictKeys (defaultOptionsDict u) = terraformCliOptionNames := rfl
    rw [hkeys]
    exact hk

/-- Witness for C8 at concrete inputs: with denylist
{state, parallelism}, the "init" subcommand drops exactly those keys,
while "apply" keeps the full default set (here: the state key). -/
theorem get_default_options_spec_witness :
    get_default_options ["state", "parallelism"] sampleUtils "init" [] =
      [("target", TfValue.list []), ("var", TfValue.dict []),
       ("var_file", TfValue.none), ("input", TfValue.boolean false)] ∧
    "state" ∈
      dictKeys (get_default_options ["state", "parallelism"] sampleUtils "apply" []) := by
  have h1 := (get_default_options_spec ["state", "parallelism"] sampleUtils
      "init" []).1 rfl
  have h2 := ((get_default_options_spec ["state", "parallelism"] sampleUtils
      "apply" []).2 (by decide)).2 "state" (by decide)
  exact ⟨h1.trans (by decide), h2⟩

end Fbpcs
